import Mathlib

/-!
Shallow embedding of `subtree.py`, a small tool wrapping `git subtree`
with an autostash transaction and a `git config`-backed registry.

External processes are not executed: the exit codes and captured output of
the git commands the script would spawn are inputs to the embedded
functions, and each function additionally returns the list of commands it
issued (its trace), so that ordering/absence-of-invocation claims can be
stated.  Python exceptions are modelled by an `Except` result or an
explicit outcome constructor; Python's behaviours that the claims hinge on
(bare `except:` catching `SystemExit`, `UnboundLocalError` on reading a
never-assigned local, `contextlib` raising `RuntimeError` when a generator
fails to yield, the interpreter exiting with status 1 on an uncaught
exception) are encoded where they occur and documented at the definition.
-/

namespace SubtreePy

/-- Python exceptions that `subtree.py` can raise, as relevant to the
claims.  `calledProcessError` carries the child's exit status
(`subprocess.check_call`), `systemExit` carries the argument of
`sys.exit`, `assertionError` is a failed `assert`, `keyError` a failed
dict lookup, `valueError` a failed tuple-unpacking of `str.split`. -/
inductive PyExc where
  | calledProcessError (returncode : Nat)
  | systemExit (code : Nat)
  | assertionError
  | keyError
  | valueError
  deriving DecidableEq, Repr

/-- Embeds `run(args, check=True)` from `subtree.py` lines 14-19: the
spawned command's exit status is the argument; `subprocess.check_call`
raises `CalledProcessError(returncode)` on a nonzero exit and returns 0
otherwise. -/
def run_check (spawnCode : Nat) : Except PyExc Nat :=
  if spawnCode ≠ 0 then .error (.calledProcessError spawnCode) else .ok 0

/-- Exit status of the Python interpreter given the outcome of `main()`:
0 on normal return, `n` when an uncaught `SystemExit n` terminates it
(`sys.exit(n)`), and 1 for every other uncaught exception (CPython prints
a traceback and exits with status 1). -/
def pyProcessExit {α : Type} : Except PyExc α → Nat
  | .ok _ => 0
  | .error (.systemExit n) => n
  | .error _ => 1

/-- A record of one subtree: a Python dict from field name (`prefix`,
`url`, `branch`) to string value, as an insertion-ordered association
list (Python dicts preserve insertion order). -/
abbrev Record := List (String × String)

/-- Table of subtree records by name, the value of `db['subtrees']`. -/
abbrev Subtrees := List (String × Record)

/-- The value returned by `read_db`: the Python dict
`{'subtrees': ...}` whose single key holds the table of records. -/
structure DB where
  subtrees : Subtrees
  deriving DecidableEq, Repr

/-- Splits a character list at every separator character (keeping empty
pieces), accumulating the current piece in reverse; the recursion is
structural so concrete instances compute. -/
def splitOnPred (p : Char → Bool) : List Char → List Char → List String
  | [], cur => [String.mk cur.reverse]
  | c :: cs, cur =>
    if p c then String.mk cur.reverse :: splitOnPred p cs []
    else splitOnPred p cs (c :: cur)

/-- Embeds Python's `line.split()` (no separator): split on whitespace,
discarding empty pieces and hence leading/trailing whitespace. -/
def pySplitWs (s : String) : List String :=
  (splitOnPred Char.isWhitespace s.data []).filter (fun piece => piece ≠ "")

/-- Embeds Python's `key.split('.')`: split at every dot, keeping empty
pieces. -/
def pySplitDot (s : String) : List String :=
  splitOnPred (fun c => c == '.') s.data []

/-- Embeds Python's `str.strip()`: remove leading and trailing
whitespace. -/
def pyStrip (s : String) : String :=
  String.mk (((s.data.dropWhile Char.isWhitespace).reverse.dropWhile Char.isWhitespace).reverse)

/-- Dict update `subtrees[name][key] = value` on a record: overwrite the
field if present, otherwise append it. -/
def recSet (r : Record) (k v : String) : Record :=
  if r.any (fun kv => kv.1 = k) then
    r.map (fun kv => if kv.1 = k then (k, v) else kv)
  else r ++ [(k, v)]

/-- Dict update `subtrees[name][key] = value` on the table, with
`collections.defaultdict(dict)` semantics: a missing name gets a fresh
one-field record appended. -/
def dbSet (s : Subtrees) (name k v : String) : Subtrees :=
  if s.any (fun nr => nr.1 = name) then
    s.map (fun nr => if nr.1 = name then (nr.1, recSet nr.2 k v) else nr)
  else s ++ [(name, [(k, v)])]

/-- Parsing of one output line of `git config --get-regexp` as `read_db`
does it (lines 69-70): `key, value = line.split()` then
`sub, name, key = key.split('.')`.  Returns `none` when either unpacking
would raise `ValueError` (not exactly two whitespace tokens, or not
exactly three dot-separated components). -/
def parseLine (line : String) : Option (String × String × String) :=
  match pySplitWs line with
  | [key, value] =>
    match pySplitDot key with
    | [_sub, name, k] => some (name, k, value)
    | _ => none
  | _ => none

/-- The line-processing loop of `read_db` (lines 68-71), folding each
parsed line into the table; the first malformed line raises
`ValueError`. -/
def parseLines : List String → Subtrees → Except PyExc Subtrees
  | [], acc => .ok acc
  | line :: rest, acc =>
    match parseLine line with
    | some (name, k, v) => parseLines rest (dbSet acc name k v)
    | none => .error .valueError

/-- Embeds `read_db` (lines 64-73).  Arguments are the exit status of
`run('git config --get-regexp "subtree\\."')` and its decoded,
line-split stdout.  `assert code == 0` raises `AssertionError` (aborting
the process) before any line is parsed. -/
def read_db (code : Nat) (lines : List String) : Except PyExc DB :=
  if code = 0 then (parseLines lines []).map DB.mk
  else .error .assertionError

/-- A `git config --replace-all <key> <value>` invocation issued by
`write_db`. -/
inductive WriteCmd where
  | configReplaceAll (key value : String)
  deriving DecidableEq, Repr

/-- The lookup `old_db.get(name)` as `write_db` performs it (line 78):
`old_db` is the OUTER dict `{'subtrees': table}`, so the lookup finds
the whole table when `name = "subtrees"` and `None` otherwise.  (The
per-record table lives one level down, at `old_db['subtrees']`.) -/
def outerGet (old_db : DB) (name : String) : Option Subtrees :=
  if name = "subtrees" then some old_db.subtrees else none

/-- Python's `subtree == old_db.get(name)` for the types that can occur:
a str-valued dict is never `==` to `None`, and it is `==` to a
dict-valued dict exactly when both are empty (dict equality compares key
sets and values; a `str` never equals a `dict`). -/
def pyEqOuterGet (r : Record) : Option Subtrees → Bool
  | none => false
  | some t => r.isEmpty && t.isEmpty

/-- Embeds `write_db(old_db, db)` (lines 75-84), returning the config
writes it issues, in order.  A record is skipped only when it compares
equal to `old_db.get(name)`; otherwise every one of its fields is
written with `git config --replace-all subtree.<name>.<key> <value>`. -/
def write_db (old_db db : DB) : List WriteCmd :=
  db.subtrees.foldl
    (fun acc nr =>
      if pyEqOuterGet nr.2 (outerGet old_db nr.1) then acc
      else acc ++ nr.2.map (fun kv =>
        WriteCmd.configReplaceAll ("subtree." ++ nr.1 ++ "." ++ kv.1) kv.2))
    []

/-- Exit statuses and captured output of the git commands the autostash
transaction may spawn; these stand for the external git behaviour. -/
structure GitEnv where
  diffCode : Nat
  cachedCode : Nat
  stashCreateCode : Nat
  stashCreateOut : String
  resetCode : Nat
  applyCode : Nat
  applyOut : String
  applyErr : String
  storeCode : Nat
  deriving DecidableEq, Repr

/-- Git commands spawned by `has_local_changes` and `autostash`, in the
order issued. -/
inductive Cmd where
  | diffQuiet
  | diffCachedQuiet
  | stashCreate
  | resetHard
  | stashApply (stash : String)
  | stashStore (stash : String)
  deriving DecidableEq, Repr

/-- Embeds `has_local_changes` (lines 24-27): `git diff --quiet` then, by
Python's short-circuiting `or`, `git diff --cached --quiet` only when the
first exits 0; a nonzero exit of either means dirty (nonzero ints are
truthy).  Returns the probe commands issued and the boolean result. -/
def has_local_changes (env : GitEnv) : List Cmd × Bool :=
  if env.diffCode ≠ 0 then ([Cmd.diffQuiet], true)
  else ([Cmd.diffQuiet, Cmd.diffCachedQuiet], decide (env.cachedCode ≠ 0))

/-- The wrapped `with autostash():` block either returns normally or
raises (a `check=True` nonzero exit raises `CalledProcessError`; a failed
`assert` or dict lookup also raises). -/
inductive OpResult where
  | ok
  | raises
  deriving DecidableEq, Repr

/-- How control leaves the `with autostash():` statement. -/
inductive TxnOutcome where
  /-- Normal completion. -/
  | normal
  /-- A `SystemExit n` from `error()` propagates (the bare `except:`
  catches it, prints the FAILURE line, and re-raises). -/
  | exited (n : Nat)
  /-- The wrapped operation's own exception propagates, re-raised by the
  handler after it printed the FAILURE line. -/
  | opExcPropagated
  /-- The handler itself raised `UnboundLocalError`: it evaluated
  `'FAILURE! stash=%s' % stash` but the local `stash` was never assigned
  on this path, so nothing is printed and the name error replaces the
  propagating exception. -/
  | nameErrorInHandler
  /-- The generator body finished without reaching a `yield`, so
  `contextlib` raises `RuntimeError("generator didn't yield")` from
  `__enter__` and the wrapped block never runs. -/
  | noYieldError
  deriving DecidableEq, Repr

/-- Result of running `with autostash(): op` — the git commands issued,
the lines printed, whether the wrapped block was ever entered, and how
control left the statement. -/
structure TxnResult where
  trace : List Cmd
  printed : List String
  opRan : Bool
  outcome : TxnOutcome
  deriving DecidableEq, Repr

/-- Embeds the `autostash` context manager (lines 29-56) run around a
wrapped operation `op`.  Faithful points: `stash` is assigned only when
`git stash create` exits 0, so the `except:` handler's
`'FAILURE! stash=%s' % stash` raises `UnboundLocalError` on any path that
never assigned it; `error()` prints and raises `SystemExit 1`, which the
bare `except:` catches and re-raises after printing the FAILURE line;
when `git stash create` exits nonzero the `if code == 0` block is skipped
and the generator body ends without yielding, which `contextlib` turns
into a `RuntimeError` before the wrapped block runs; when the wrapped
block raises, the exception re-enters the generator at the `yield`, so
the `git stash apply` after the `yield` is never issued. -/
def autostash (env : GitEnv) (op : OpResult) : TxnResult :=
  let probes := (has_local_changes env).1
  if (has_local_changes env).2 then
    let trace0 := probes ++ [Cmd.stashCreate]
    if env.stashCreateCode = 0 then
      let stash := pyStrip env.stashCreateOut
      let trace1 := trace0 ++ [Cmd.resetHard]
      if env.resetCode ≠ 0 then
        { trace := trace1
          printed := ["Auto-stashing changes...",
                      "Failed to reset, but stashed at " ++ stash,
                      "FAILURE! stash=" ++ stash]
          opRan := false
          outcome := .exited 1 }
      else
        match op with
        | .raises =>
          { trace := trace1
            printed := ["Auto-stashing changes...", "FAILURE! stash=" ++ stash]
            opRan := true
            outcome := .opExcPropagated }
        | .ok =>
          let trace2 := trace1 ++ [Cmd.stashApply stash]
          if env.applyCode ≠ 0 then
            let trace3 := trace2 ++ [Cmd.stashStore stash]
            if env.storeCode ≠ 0 then
              { trace := trace3
                printed := ["Auto-stashing changes...", env.applyOut, env.applyErr,
                            "Error applying autostash. Saving to stashes...",
                            "Failed to store stash " ++ stash ++ "!",
                            "FAILURE! stash=" ++ stash]
                opRan := true
                outcome := .exited 1 }
            else
              { trace := trace3
                printed := ["Auto-stashing changes...", env.applyOut, env.applyErr,
                            "Error applying autostash. Saving to stashes..."]
                opRan := true
                outcome := .normal }
          else
            { trace := trace2
              printed := ["Auto-stashing changes..."]
              opRan := true
              outcome := .normal }
    else
      { trace := trace0
        printed := ["Auto-stashing changes..."]
        opRan := false
        outcome := .noYieldError }
  else
    match op with
    | .ok => { trace := probes, printed := [], opRan := true, outcome := .normal }
    | .raises =>
      { trace := probes, printed := [], opRan := true, outcome := .nameErrorInHandler }

/-- Tests whether a command is a `git stash apply` (the restore step). -/
def isApply : Cmd → Bool
  | .stashApply _ => true
  | _ => false

/-- Python dict lookup `db['subtrees'].get(alias)`-style access on the
table (for `main`'s handlers, which index with `db['subtrees'][alias]`,
raising `KeyError` when absent). -/
def dbLookup (db : DB) (name : String) : Option Record :=
  (db.subtrees.find? (fun nr => nr.1 = name)).map (fun nr => nr.2)

/-- Record field lookup `subtree[field]`, `KeyError` when absent. -/
def recLookup (r : Record) (k : String) : Option String :=
  (r.find? (fun kv => kv.1 = k)).map (fun kv => kv.2)

/-- External `git subtree` invocations spawned by `main`'s command
handlers. -/
inductive SubCmd where
  | subtreeAdd (pfx url branch : String)
  | subtreeSync (cmd pfx url branch : String)
  | subtreeSplit (pfx : String)
  deriving DecidableEq, Repr

/-- Embeds the `add` branch of `main` (lines 120-125), run with the exit
status `mountCode` of the spawned `git subtree add`.  The source calls
`run([...], check=True)` FIRST, and only afterwards evaluates
`assert args.alias not in db['subtrees']`; on success the new record is
inserted.  Returns the spawned commands and the resulting db or
exception. -/
def add_cmd (mountCode : Nat) (db : DB) (aliasName pfx url branch : String) :
    List SubCmd × Except PyExc DB :=
  let trace := [SubCmd.subtreeAdd pfx url branch]
  if mountCode ≠ 0 then (trace, .error (.calledProcessError mountCode))
  else if (dbLookup db aliasName).isSome then (trace, .error .assertionError)
  else (trace, .ok ⟨db.subtrees ++ [(aliasName, [("prefix", pfx), ("url", url), ("branch", branch)])]⟩)

/-- Embeds the `push`/`pull` branch of `main` (lines 127-131), run with
the exit status `spawnCode` of the spawned `git subtree <cmd>`.  The
lookups `db['subtrees'][args.alias]` and `subtree['prefix']` /
`subtree['url']` / `subtree['branch']` all happen while building the
argument vector, before `run` is called, so a `KeyError` spawns
nothing. -/
def pull_push_cmd (spawnCode : Nat) (db : DB) (aliasName cmd : String) :
    List SubCmd × Except PyExc Unit :=
  match dbLookup db aliasName with
  | none => ([], .error .keyError)
  | some rec =>
    match recLookup rec "prefix", recLookup rec "url", recLookup rec "branch" with
    | some p, some u, some b =>
      if spawnCode ≠ 0 then
        ([SubCmd.subtreeSync cmd p u b], .error (.calledProcessError spawnCode))
      else ([SubCmd.subtreeSync cmd p u b], .ok ())
    | _, _, _ => ([], .error .keyError)

/-- Refinement-side predicate, modelled from the spec's words for the
well-formedness claim about stored config lines: the line splits into
exactly one key and one (necessarily whitespace-free) value, and the key
has exactly three dotted components.  To be compared against what
`read_db` actually accepts. -/
def specWellFormedLine (l : String) : Bool :=
  match pySplitWs l with
  | [key, _value] => (pySplitDot key).length = 3
  | _ => false

/-- The probe trace of `has_local_changes` is one of its two possible
shapes (short-circuited or both probes). -/
theorem probes_cases (env : GitEnv) :
    (has_local_changes env).1 = [Cmd.diffQuiet] ∨
    (has_local_changes env).1 = [Cmd.diffQuiet, Cmd.diffCachedQuiet] := by
  rw [has_local_changes]
  by_cases h : env.diffCode ≠ 0 <;> simp [h]

/-- The parsing loop of `read_db` can only fail with `ValueError`, never
with the `AssertionError` reserved for the failed query status check. -/
theorem parseLines_ne_assertionError :
    ∀ (lines : List String) (acc : Subtrees),
      parseLines lines acc ≠ Except.error PyExc.assertionError := by
  intro lines
  induction lines with
  | nil => intro acc h; simp [parseLines] at h
  | cons l rest ih =>
    intro acc h
    rw [parseLines] at h
    cases hp : parseLine l with
    | none => rw [hp] at h; simp at h
    | some t => obtain ⟨name, k, v⟩ := t; rw [hp] at h; exact ih _ h

/-- One line parses without a `ValueError` exactly when it is well formed
in the spec's sense: two whitespace tokens whose key has three dotted
components. -/
theorem parseLine_isSome_iff (l : String) :
    (parseLine l).isSome = true ↔ specWellFormedLine l = true := by
  rw [parseLine, specWellFormedLine]
  cases hws : pySplitWs l with
  | nil => simp
  | cons a t =>
    cases t with
    | nil => simp
    | cons b t2 =>
      cases t2 with
      | nil =>
        cases hd : pySplitDot a with
        | nil => simp [hd]
        | cons x xs =>
          cases xs with
          | nil => simp [hd]
          | cons y ys =>
            cases ys with
            | nil => simp [hd]
            | cons z zs =>
              cases zs with
              | nil => simp [hd]
              | cons w ws => simp [hd]
      | cons c t3 => simp

/-- The parsing loop of `read_db` succeeds exactly when every line is
well formed in the spec's sense, for any accumulator. -/
theorem parseLines_ok_iff (lines : List String) :
    ∀ acc : Subtrees, (∃ s, parseLines lines acc = Except.ok s) ↔
      (∀ l ∈ lines, specWellFormedLine l = true) := by
  induction lines with
  | nil => intro acc; simp [parseLines]
  | cons l rest ih =>
    intro acc
    rw [parseLines]
    cases hp : parseLine l with
    | none =>
      have hwf : ¬ specWellFormedLine l = true := by
        have h2 := (parseLine_isSome_iff l).mpr
        intro hc
        have := h2 hc
        rw [hp] at this
        simp at this
      simp [hwf]
    | some t =>
      obtain ⟨name, k, v⟩ := t
      have hwf : specWellFormedLine l = true := by
        have := (parseLine_isSome_iff l).mp
        rw [hp] at this
        simpa using this rfl
      simp [hwf, ih]

/-- Claim C1 (corrected): in an Autostash Transaction that started dirty
(snapshot created, reset succeeded), when the wrapped operation raises
(which is also how a `check=True` nonzero exit surfaces), the restore
step is NOT attempted: no `git stash apply` appears in the trace; the
handler prints the FAILURE line with the snapshot identifier and the
operation's failure propagates. -/
theorem autostash_dirty_op_failure_no_restore (env : GitEnv)
    (hd : (has_local_changes env).2 = true)
    (hsc : env.stashCreateCode = 0) (hr : env.resetCode = 0) :
    (autostash env OpResult.raises).trace.any isApply = false ∧
    (autostash env OpResult.raises).outcome = TxnOutcome.opExcPropagated ∧
    ("FAILURE! stash=" ++ pyStrip env.stashCreateOut) ∈ (autostash env OpResult.raises).printed := by
  rcases probes_cases env with h | h <;>
    simp [autostash, hd, hsc, hr, h, isApply]

/-- Claim C1, witness: the corrected statement at a concrete dirty-start
environment. -/
theorem autostash_dirty_op_failure_no_restore_witness :
    (autostash ⟨1, 0, 0, "s1", 0, 0, "", "", 0⟩ OpResult.raises).trace.any isApply = false ∧
    (autostash ⟨1, 0, 0, "s1", 0, 0, "", "", 0⟩ OpResult.raises).outcome = TxnOutcome.opExcPropagated ∧
    ("FAILURE! stash=" ++ pyStrip "s1") ∈ (autostash ⟨1, 0, 0, "s1", 0, 0, "", "", 0⟩ OpResult.raises).printed :=
  autostash_dirty_op_failure_no_restore ⟨1, 0, 0, "s1", 0, 0, "", "", 0⟩ (by decide) rfl rfl

/-- Claim C1, counterexample to the claim as stated: a transaction that
started dirty (dirty probe exits 1, `git stash create` exits 0 printing
`abc123`, reset exits 0) whose wrapped operation raises issues no
snapshot-apply at all — its full command trace is probe, stash-create,
reset — yet the failure propagates, so the restore step was not
attempted on the way out. -/
theorem autostash_dirty_op_failure_restore_not_attempted_cex :
    (autostash ⟨1, 0, 0, "abc123", 0, 0, "", "", 0⟩ OpResult.raises).trace =
      [Cmd.diffQuiet, Cmd.stashCreate, Cmd.resetHard] ∧
    (autostash ⟨1, 0, 0, "abc123", 0, 0, "", "", 0⟩ OpResult.raises).trace.any isApply = false ∧
    (autostash ⟨1, 0, 0, "abc123", 0, 0, "", "", 0⟩ OpResult.raises).outcome = TxnOutcome.opExcPropagated :=
  ⟨rfl, by decide, rfl⟩

/-- Claim C2 (code bug): `write_db(R, R)` on a registry `R` holding one
record — exactly what `read_db` returns after an `add` — issues one
`git config --replace-all` write per field instead of the zero writes
the differential-write contract (and the code's own comment) promises,
because line 78 consults `old_db.get(name)`, a lookup in the outer
`{'subtrees': ...}` dict, instead of `old_db['subtrees'].get(name)`. -/
theorem write_db_unchanged_record_still_written :
    write_db ⟨[("x", [("prefix", "p"), ("url", "u"), ("branch", "b")])]⟩
             ⟨[("x", [("prefix", "p"), ("url", "u"), ("branch", "b")])]⟩ =
      [WriteCmd.configReplaceAll "subtree.x.prefix" "p",
       WriteCmd.configReplaceAll "subtree.x.url" "u",
       WriteCmd.configReplaceAll "subtree.x.branch" "b"] := rfl

/-- Claim C3 (code bug): when the dirty probes report changes
(`git diff --quiet` exits 1) but `git stash create` exits nonzero, the
wrapped operation is never executed — the generator body skips the
`if code == 0` block and ends without yielding, so `contextlib` raises
`RuntimeError` instead of taking the Clean-start path the spec
mandates. -/
theorem autostash_dirty_stash_create_fails_no_yield :
    (autostash ⟨1, 0, 1, "", 0, 0, "", "", 0⟩ OpResult.ok).opRan = false ∧
    (autostash ⟨1, 0, 1, "", 0, 0, "", "", 0⟩ OpResult.ok).outcome = TxnOutcome.noYieldError ∧
    (autostash ⟨1, 0, 1, "", 0, 0, "", "", 0⟩ OpResult.ok).trace = [Cmd.diffQuiet, Cmd.stashCreate] :=
  ⟨rfl, rfl, rfl⟩

/-- Claim C4 (confirmed): `read_db` aborts with the query-status
assertion exactly when the config query exits nonzero — never because
the result set is empty — and on a successful query with no matching
keys it returns the empty registry. -/
theorem read_db_aborts_iff_query_fails (code : Nat) (lines : List String) :
    (read_db code lines = Except.error PyExc.assertionError ↔ code ≠ 0) ∧
    read_db 0 [] = Except.ok ⟨[]⟩ := by
  refine ⟨⟨fun h hc => ?_, fun h => ?_⟩, rfl⟩
  · subst hc
    rw [read_db] at h
    simp only [if_pos rfl] at h
    cases hp : parseLines lines [] with
    | ok s => rw [hp] at h; simp [Except.map] at h
    | error e =>
      rw [hp] at h
      simp [Except.map] at h
      exact parseLines_ne_assertionError lines [] (by rw [hp, h])
  · rw [read_db]
    simp [h]

/-- Claim C4, witness: a failed query (exit 1) aborts, a successful
empty query yields the empty registry. -/
theorem read_db_aborts_iff_query_fails_witness :
    read_db 1 [] = Except.error PyExc.assertionError ∧ read_db 0 [] = Except.ok ⟨[]⟩ :=
  ⟨(read_db_aborts_iff_query_fails 1 []).1.mpr (by decide),
   (read_db_aborts_iff_query_fails 0 []).2⟩

/-- Claim C5 (code bug): `add` with an alias already present still spawns
the external `git subtree add` — the trace contains the mount command —
and only afterwards fails on `assert args.alias not in db['subtrees']`,
contradicting the check-before-side-effect ordering the spec mandates. -/
theorem add_duplicate_mount_invoked_before_check :
    add_cmd 0 ⟨[("x", [("prefix", "p"), ("url", "u"), ("branch", "b")])]⟩
      "x" "vendor/x" "https://example/x.git" "master" =
      ([SubCmd.subtreeAdd "vendor/x" "https://example/x.git" "master"],
       Except.error PyExc.assertionError) := rfl

/-- Claim C6 (confirmed): `pull`/`push` with an alias absent from the
registry raises `KeyError` on the lookup and spawns no external
process — the trace is empty. -/
theorem pull_push_missing_alias_no_spawn (spawnCode : Nat) (db : DB) (aliasName cmd : String)
    (h : dbLookup db aliasName = none) :
    pull_push_cmd spawnCode db aliasName cmd = ([], Except.error PyExc.keyError) := by
  rw [pull_push_cmd, h]

/-- Claim C6, witness: `pull missing` against an empty registry spawns
nothing. -/
theorem pull_push_missing_alias_no_spawn_witness :
    pull_push_cmd 0 ⟨[]⟩ "missing" "pull" = ([], Except.error PyExc.keyError) :=
  pull_push_missing_alias_no_spawn 0 ⟨[]⟩ "missing" "pull" rfl

/-- Claim C7, counterexample to the claim as stated: a `check=True`
command exiting 3 raises `CalledProcessError 3`, and the interpreter's
exit status for that uncaught exception is 1, not 3 — the wrapped
command's exit status is not propagated as the process exit status. -/
theorem run_check_exit_status_cex :
    run_check 3 = Except.error (PyExc.calledProcessError 3) ∧
    pyProcessExit (run_check 3) = 1 ∧ pyProcessExit (run_check 3) ≠ 3 :=
  ⟨rfl, rfl, by decide⟩

/-- Claim C7 (corrected): every `check=True` invocation whose command
exits nonzero aborts the process via an uncaught `CalledProcessError`
that carries the command's status, but the process exit status is the
interpreter's generic 1. -/
theorem run_check_nonzero_aborts_with_status_one (c : Nat) (h : c ≠ 0) :
    run_check c = Except.error (PyExc.calledProcessError c) ∧
    pyProcessExit (run_check c) = 1 := by
  constructor
  · simp [run_check, h]
  · simp [run_check, h, pyProcessExit]

/-- Claim C7, witness: the corrected statement at command exit status 2. -/
theorem run_check_nonzero_aborts_with_status_one_witness :
    run_check 2 = Except.error (PyExc.calledProcessError 2) ∧
    pyProcessExit (run_check 2) = 1 :=
  run_check_nonzero_aborts_with_status_one 2 (by decide)

/-- Claim C8 (confirmed): on a clean tree (both dirty probes exit 0) the
transaction's whole command trace is just the two probes — no
stash-create, reset, apply or store — and the wrapped operation runs. -/
theorem autostash_clean_no_stash_commands (env : GitEnv) (op : OpResult)
    (hd : env.diffCode = 0) (hc : env.cachedCode = 0) :
    (autostash env op).trace = [Cmd.diffQuiet, Cmd.diffCachedQuiet] ∧
    (autostash env op).opRan = true := by
  have h1 : has_local_changes env = ([Cmd.diffQuiet, Cmd.diffCachedQuiet], false) := by
    simp [has_local_changes, hd, hc]
  cases op <;> simp [autostash, h1]

/-- Claim C8, witness: the clean-start property at a concrete clean
environment. -/
theorem autostash_clean_no_stash_commands_witness :
    (autostash ⟨0, 0, 0, "", 0, 0, "", "", 0⟩ OpResult.ok).trace =
      [Cmd.diffQuiet, Cmd.diffCachedQuiet] ∧
    (autostash ⟨0, 0, 0, "", 0, 0, "", "", 0⟩ OpResult.ok).opRan = true :=
  autostash_clean_no_stash_commands ⟨0, 0, 0, "", 0, 0, "", "", 0⟩ OpResult.ok rfl rfl

/-- Claim C9 (confirmed): when the wrapped operation raises on the
Clean-start path, the handler's `'FAILURE! stash=%s' % stash` reads the
never-assigned local `stash` and dies with `UnboundLocalError`; nothing
is printed, so the intended FAILURE message never appears. -/
theorem autostash_clean_raise_name_error (env : GitEnv)
    (hd : env.diffCode = 0) (hc : env.cachedCode = 0) :
    (autostash env OpResult.raises).outcome = TxnOutcome.nameErrorInHandler ∧
    (autostash env OpResult.raises).printed = [] := by
  have h1 : has_local_changes env = ([Cmd.diffQuiet, Cmd.diffCachedQuiet], false) := by
    simp [has_local_changes, hd, hc]
  simp [autostash, h1]

/-- Claim C9, witness: the unbound-local failure at a concrete clean
environment. -/
theorem autostash_clean_raise_name_error_witness :
    (autostash ⟨0, 0, 0, "", 0, 0, "", "", 0⟩ OpResult.raises).outcome = TxnOutcome.nameErrorInHandler ∧
    (autostash ⟨0, 0, 0, "", 0, 0, "", "", 0⟩ OpResult.raises).printed = [] :=
  autostash_clean_raise_name_error ⟨0, 0, 0, "", 0, 0, "", "", 0⟩ rfl rfl

/-- Claim C10 (confirmed): a successful query's output parses into a
registry exactly when every stored line splits into one key plus one
whitespace-free value whose key has exactly three dotted components;
any other line makes `read_db` fail with the unpacking `ValueError`
instead of returning a registry. -/
theorem read_db_ok_iff_lines_well_formed (lines : List String) :
    (∃ db, read_db 0 lines = Except.ok db) ↔
      (∀ l ∈ lines, specWellFormedLine l = true) := by
  rw [read_db]
  simp only [if_pos rfl]
  rw [← parseLines_ok_iff lines []]
  cases h : parseLines lines [] with
  | ok s => simp [h, Except.map]
  | error e => simp [h, Except.map]

/-- Claim C10, witness: a well-formed line parses; the same line with a
whitespace-containing value does not. -/
theorem read_db_ok_iff_lines_well_formed_witness :
    (∃ db, read_db 0 ["subtree.x.url u"] = Except.ok db) ∧
    ¬ (∃ db, read_db 0 ["subtree.x.url u v"] = Except.ok db) :=
  ⟨(read_db_ok_iff_lines_well_formed ["subtree.x.url u"]).mpr (by decide),
   fun h => by
     have := (read_db_ok_iff_lines_well_formed ["subtree.x.url u v"]).mp h "subtree.x.url u v" (by decide)
     exact absurd this (by decide)⟩

end SubtreePy
